import Mathlib

/-!
Shallow embedding of the python-decouple-typed configuration resolver
(src/decouple/decouple.py) and verification of its specification.

The process environment (os.environ) is modelled as an association list of
string pairs; repositories carry their backing stores as association lists
built at construction time; Python exceptions are modelled as an error type
returned through Except.
-/

set_option autoImplicit false

namespace Decouple

/-- Quote characters, built by code point so the file avoids quote literals. -/
def squote : Char := Char.ofNat 39

/-- Double-quote character (code point 34). -/
def dquote : Char := Char.ofNat 34

/-- Backslash character (code point 92). -/
def bslash : Char := Char.ofNat 92

/-- Whitespace predicate used by Python str.strip with no arguments
(space, tab, newline, carriage return, vertical tab, form feed). -/
def pyIsSpace (c : Char) : Bool :=
  c = ' ' || c = '\t' || c = '\n' || c = '\r' || c = Char.ofNat 11 || c = Char.ofNat 12

/-- Strip pyIsSpace characters from both ends of a character list. -/
def pyStripList (l : List Char) : List Char :=
  ((l.dropWhile pyIsSpace).reverse.dropWhile pyIsSpace).reverse

/-- Python str.strip() with no arguments, on strings. -/
def pyStrip (s : String) : String := String.mk (pyStripList s.data)

/-- The character set of Python string.whitespace. -/
def pyWhitespace : List Char := [' ', '\t', '\n', '\r', Char.ofNat 11, Char.ofNat 12]

/-- Python str.strip(chars): drop characters of the given set from both ends. -/
def pyStripChars (chars : List Char) (s : String) : String :=
  String.mk (((s.data.dropWhile (chars.contains ·)).reverse.dropWhile
    (chars.contains ·)).reverse)

/-- Lowercase one character in the ASCII range, other characters unchanged. -/
def asciiLower (c : Char) : Char :=
  if 65 ≤ c.toNat ∧ c.toNat ≤ 90 then Char.ofNat (c.toNat + 32) else c

/-- Python str.lower, modelled on the ASCII range (the boolean vocabularies
it is compared against are ASCII). -/
def pyLower (s : String) : String := String.mk (s.data.map asciiLower)

/-- Split a character list at the first occurrence of a separator character,
returning none when the separator does not occur.  This models both the
Python membership test (sep in line) and line.split(sep, 1). -/
def splitFirst (c : Char) : List Char → Option (List Char × List Char)
  | [] => none
  | x :: xs =>
    if x = c then some ([], xs)
    else
      match splitFirst c xs with
      | none => none
      | some (a, b) => some (x :: a, b)

/-- Association-list lookup, first binding wins; models Python dict lookup. -/
def alookup : List (String × String) → String → Option String
  | [], _ => none
  | (k, v) :: rest, key => if k = key then some v else alookup rest key

/-- The process environment-variable table (os.environ), modelled as an
association list. -/
abbrev Env := List (String × String)

/-- Membership test key in os.environ. -/
def envContains (env : Env) (key : String) : Bool := (alookup env key).isSome

/-- A Python runtime value, as far as the library manipulates them: strings,
booleans, integers, None, and lists (enough to express non-string defaults
and cast results). -/
inductive PyVal where
  | str (s : String)
  | boolV (b : Bool)
  | intV (n : Int)
  | noneV
  | listV (l : List PyVal)

/-- The exception kinds raised by the library.  undefinedValue carries the
full message built by Config.get; invalidTruth carries the offending
(lowercased) value from strtobool; keyError carries the missing key;
notImplementedError is RepositoryEmpty.__getitem__; castError is any error
escaping a user-supplied cast callable; recursionError is the interpreter
exhausting its recursion depth, which AutoConfig._find_file does when the
search passes the filesystem root. -/
inductive PyErr where
  | undefinedValue (msg : String)
  | invalidTruth (value : String)
  | keyError (key : String)
  | notImplementedError
  | castError (msg : String)
  | recursionError
  deriving DecidableEq, Repr

/-- TRUE_VALUES from the source. -/
def TRUE_VALUES : List String := ["y", "yes", "t", "true", "on", "1"]

/-- FALSE_VALUES from the source. -/
def FALSE_VALUES : List String := ["n", "no", "f", "false", "off", "0"]

/-- strtobool from the source, on string input (the bool fast path of the
Python function is unreachable from Config.get, whose value is always a
string when a cast is applied): lowercase, test the two vocabularies, raise
ValueError naming the lowercased value otherwise. -/
def strtobool (value : String) : Except PyErr Bool :=
  if TRUE_VALUES.contains (pyLower value) then .ok true
  else if FALSE_VALUES.contains (pyLower value) then .ok false
  else .error (.invalidTruth (pyLower value))

/-- The helper _cast_boolean: empty string maps to False via bool(value),
anything else goes through strtobool. -/
def castBoolean (value : String) : Except PyErr Bool :=
  if value = "" then .ok false else strtobool value

/-- The Repository variants.  Empty carries nothing; EnvFile and SecretDir
carry the dict built at construction; IniFile carries the option map of the
single section named settings (values already interpolated by the INI
parser; files lacking that section fail at parser level, outside this
model, per the spec's open question on malformed INI files). -/
inductive Repository where
  | empty
  | ini (data : List (String × String))
  | envFile (data : List (String × String))
  | secret (data : List (String × String))
  deriving DecidableEq

/-- The membership operation of each variant, from its __contains__ method.
RepositoryEmpty returns False unconditionally; the three file-backed
variants first test key in os.environ and then their own store. -/
def Repository.contains (r : Repository) (env : Env) (key : String) : Bool :=
  match r with
  | .empty => false
  | .ini data => envContains env key || (alookup data key).isSome
  | .envFile data => envContains env key || (alookup data key).isSome
  | .secret data => envContains env key || (alookup data key).isSome

/-- The direct lookup operation of each variant, from its __getitem__
method.  It takes no environment argument because none of the Python
implementations reads os.environ: Empty raises NotImplementedError;
IniFile catches NoOptionError and raises KeyError(key); EnvFile and
SecretDir index their dict, raising KeyError(key) on a miss. -/
def Repository.getItem (r : Repository) (key : String) : Except PyErr String :=
  match r with
  | .empty => .error .notImplementedError
  | .ini data =>
    match alookup data key with
    | some v => .ok v
    | none => .error (.keyError key)
  | .envFile data =>
    match alookup data key with
    | some v => .ok v
    | none => .error (.keyError key)
  | .secret data =>
    match alookup data key with
    | some v => .ok v
    | none => .error (.keyError key)

/-- The cast argument of Config.get: the Undefined sentinel, the Python
builtin bool (replaced by _cast_boolean inside get), or any other callable.
Errors raised by a user callable are modelled as castError. -/
inductive Cast where
  | undefinedC
  | boolC
  | fnC (f : String → Except String PyVal)

/-- Lines 137 to 146 of Config.get, applied once a raw string value has been
resolved: the Undefined cast returns the string unchanged, bool is replaced
by _cast_boolean, and any other callable is applied to the string. -/
def applyCast (cast : Cast) (value : String) : Except PyErr PyVal :=
  match cast with
  | .undefinedC => .ok (.str value)
  | .boolC => (castBoolean value).map .boolV
  | .fnC f =>
    match f value with
    | .ok x => .ok x
    | .error m => .error (.castError m)

/-- The message of the UndefinedValueError raised by Config.get. -/
def undefinedMsg (option : String) : String :=
  String.mk ([squote] ++ option.data ++ [squote] ++
    " not found. Declare it as envvar or define a default value.".data)

/-- Config.get from the source.  default = none models the Undefined
sentinel (no default supplied); some v models a supplied default value.
Resolution order: os.environ, then the owned repository via its
__contains__ and __getitem__, then the default, where a missing default
raises UndefinedValueError and a non-string default returns immediately
without casting.  The two asserts of the source are provably unreachable
here (the cast branch is only entered with a string value and a
non-Undefined cast). -/
def Config.get (env : Env) (repo : Repository) (option : String)
    (default : Option PyVal) (cast : Cast) : Except PyErr PyVal :=
  match alookup env option with
  | some v => applyCast cast v
  | none =>
    if repo.contains env option then
      match repo.getItem option with
      | .ok v => applyCast cast v
      | .error e => .error e
    else
      match default with
      | none => .error (.undefinedValue (undefinedMsg option))
      | some (.str s) => applyCast cast s
      | some v => .ok v

/-- Strip a single pair of matching outer quotes, as RepositoryEnv.__init__
does: only when the value has length at least 2 and both ends are the same
straight single- or double-quote character, remove exactly those two
characters (v[1:-1]); no escape processing. -/
def stripMatchingQuotes (v : String) : String :=
  let l := v.data
  if 2 ≤ l.length ∧
      ((l.head? = some squote ∧ l.getLast? = some squote) ∨
       (l.head? = some dquote ∧ l.getLast? = some dquote)) then
    String.mk l.tail.dropLast
  else v

/-- Processing of one line of an env file by RepositoryEnv.__init__: strip
the line; skip it when empty, starting with the hash character, or without
an equals sign; otherwise split at the first equals sign, strip key and
value, and strip one matching outer quote pair from the value. -/
def parseEnvLine (line : String) : Option (String × String) :=
  let l := pyStripList line.data
  if l = [] then none
  else if l.head? = some '#' then none
  else
    match splitFirst '=' l with
    | none => none
    | some (k, v) =>
      some (String.mk (pyStripList k),
        stripMatchingQuotes (String.mk (pyStripList v)))

/-- Python dict assignment d[k] = v on an association list: overwrite the
existing binding in place, else append at the end (insertion order kept). -/
def dictInsert : List (String × String) → String → String → List (String × String)
  | [], k, v => [(k, v)]
  | (k0, v0) :: rest, k, v =>
    if k0 = k then (k, v) :: rest else (k0, v0) :: dictInsert rest k v

/-- The dict self.data built by RepositoryEnv.__init__ from the lines of the
source file: fold parseEnvLine over the lines, later duplicates overwriting
earlier ones. -/
def repositoryEnvData (lines : List String) : List (String × String) :=
  lines.foldl
    (fun d line =>
      match parseEnvLine line with
      | none => d
      | some (k, v) => dictInsert d k v)
    []

/-- The filenames AutoConfig.SUPPORTED checks, in priority order. -/
def SUPPORTED : List String := ["settings.ini", ".env"]

/-- Truthiness of a pathlib.Path object, as tested by the first half of the
recursion guard of AutoConfig._find_file (if parent and ...): a Path is a
nonempty object and is always truthy, even for the filesystem root. -/
def pathTruthy (_p : List String) : Bool := true

/-- The second half of the recursion guard of AutoConfig._find_file:
os.path.normcase(parent) != root_dir.  The left operand is a str (normcase
returns os.fspath of its argument) while root_dir = Path(os.sep).resolve()
is a Path; in Python a str and a Path never compare equal (both __eq__
methods return NotImplemented, so equality falls back to identity), hence
this inequality holds for every directory, including the root. -/
def normcaseNeRootDir (_parent : List String) : Bool := true

/-- AutoConfig._find_file.  A directory is a list of path components with
the innermost component first (the empty list is the filesystem root), so
the parent directory (Path.parent) is the tail of the list, the tail of
the root being the root again.  isFile tells whether a directory holds a
file of a given name; fuel is the interpreter recursion depth remaining,
exhaustion of which raises RecursionError.  At each directory the
SUPPORTED names are tried in order; on a miss the guard
(parent and os.path.normcase(parent) != root_dir) is tested, and since a
Path is always truthy and a str never equals a Path it always holds, so
the search always recurses into the parent; at the root it recurses into
the root itself until the fuel runs out.  The final branch (the Python
return of the empty string, commented reached root without finding any
files) is consequently dead code. -/
def findFileAux (isFile : List String → String → Bool) :
    Nat → List String → Except PyErr (Option (List String × String))
  | 0, _ => .error .recursionError
  | fuel + 1, p =>
    if isFile p "settings.ini" then .ok (some (p, "settings.ini"))
    else if isFile p ".env" then .ok (some (p, ".env"))
    else if pathTruthy p.tail && normcaseNeRootDir p.tail then
      findFileAux isFile fuel p.tail
    else .ok none

/-- AutoConfig._load: run the search inside a blanket exception handler
(any exception, the RecursionError of the unbounded search included, is
treated as no file found), then build the repository matching the found
filename, falling back to RepositoryEmpty otherwise.  The repositories
over found files are built by the given constructors (readIni for
settings.ini, readEnv for .env), abstracting the file reads. -/
def autoLoadRepo (isFile : List String → String → Bool)
    (readIni readEnv : List String → List (String × String))
    (fuel : Nat) (path : List String) : Repository :=
  match findFileAux isFile fuel path with
  | .ok (some (p, name)) =>
    if name = "settings.ini" then .ini (readIni p)
    else if name = ".env" then .envFile (readEnv p)
    else .empty
  | .ok none => .empty
  | .error _ => .empty

/-- Lexer states of shlex in posix mode with whitespace_split, as configured
by Csv.__call__: outside any token, inside a word, inside single quotes,
inside double quotes, after an escape character outside quotes, and after
an escape character inside double quotes. -/
inductive ShState where
  | outside
  | word
  | inSingle
  | inDouble
  | escWord
  | escDouble
  deriving DecidableEq

/-- The shlex posix read loop with whitespace_split = True, whitespace set
to the Csv delimiter characters, quote characters the two straight quotes,
escape character the backslash and escaped quotes the double quote.  tok is
the token being accumulated, quoted records whether the current token saw a
quote (a closed empty quote still yields a token), acc the emitted tokens.
An unterminated quote or trailing escape raises ValueError. -/
def shlexRun (ws : List Char) :
    List Char → ShState → List Char → Bool → List (List Char) →
    Except String (List (List Char))
  | [], st, tok, quoted, acc =>
    match st with
    | .outside => .ok acc
    | .word => .ok (acc ++ if tok ≠ [] ∨ quoted then [tok] else [])
    | .inSingle => .error "No closing quotation"
    | .inDouble => .error "No closing quotation"
    | .escWord => .error "No escaped character"
    | .escDouble => .error "No escaped character"
  | c :: rest, .outside, tok, quoted, acc =>
    if ws.contains c then shlexRun ws rest .outside [] false acc
    else if c = squote then shlexRun ws rest .inSingle tok true acc
    else if c = dquote then shlexRun ws rest .inDouble tok true acc
    else if c = bslash then shlexRun ws rest .escWord tok quoted acc
    else shlexRun ws rest .word (tok ++ [c]) quoted acc
  | c :: rest, .word, tok, quoted, acc =>
    if ws.contains c then
      shlexRun ws rest .outside [] false
        (acc ++ if tok ≠ [] ∨ quoted then [tok] else [])
    else if c = squote then shlexRun ws rest .inSingle tok true acc
    else if c = dquote then shlexRun ws rest .inDouble tok true acc
    else if c = bslash then shlexRun ws rest .escWord tok quoted acc
    else shlexRun ws rest .word (tok ++ [c]) quoted acc
  | c :: rest, .inSingle, tok, quoted, acc =>
    if c = squote then shlexRun ws rest .word tok quoted acc
    else shlexRun ws rest .inSingle (tok ++ [c]) quoted acc
  | c :: rest, .inDouble, tok, quoted, acc =>
    if c = dquote then shlexRun ws rest .word tok quoted acc
    else if c = bslash then shlexRun ws rest .escDouble tok quoted acc
    else shlexRun ws rest .inDouble (tok ++ [c]) quoted acc
  | c :: rest, .escWord, tok, quoted, acc =>
    shlexRun ws rest .word (tok ++ [c]) quoted acc
  | c :: rest, .escDouble, tok, quoted, acc =>
    if c = dquote ∨ c = bslash then
      shlexRun ws rest .inDouble (tok ++ [c]) quoted acc
    else shlexRun ws rest .inDouble (tok ++ [bslash, c]) quoted acc

/-- shlex(value, posix=True) with whitespace = delimiter and
whitespace_split = True, consumed to a list of tokens. -/
def shlexSplit (delimiter : String) (value : String) :
    Except String (List String) :=
  (shlexRun delimiter.data value.data .outside [] false []).map
    (fun toks => toks.map String.mk)

/-- Csv.__call__: None yields the empty list; otherwise tokenize with shlex
as above and apply cast to each token after stripping the strip characters
from its edges.  The default configuration is cast = str (the identity on
strings), delimiter a comma, strip = string.whitespace. -/
def Csv.call {α : Type} (cast : String → α) (delimiter : String)
    (strip : List Char) (value : Option String) : Except String (List α) :=
  match value with
  | none => .ok []
  | some v =>
    (shlexSplit delimiter v).map
      (fun toks => toks.map (fun s => cast (pyStripChars strip s)))

/-! Helper lemmas shared by the claim theorems. -/

/-- Casting a resolved string never produces an UndefinedValueError: the
Undefined cast returns the string, the boolean cast fails only with the
ValueError of strtobool, and user-callable failures are cast errors. -/
theorem applyCast_ne_undefinedValue (c : Cast) (v : String) (msg : String) :
    applyCast c v ≠ .error (.undefinedValue msg) := by
  cases c with
  | undefinedC => simp [applyCast]
  | boolC =>
    simp only [applyCast, castBoolean, strtobool]
    split
    · simp [Except.map]
    · split
      · simp [Except.map]
      · split <;> simp [Except.map]
  | fnC f =>
    simp only [applyCast]
    cases f v <;> simp

/-- Every error of a direct repository lookup is NotImplementedError (the
Empty variant) or KeyError on the requested key (the other variants). -/
theorem getItem_error_cases (r : Repository) (k : String) (e : PyErr)
    (h : r.getItem k = .error e) :
    e = .notImplementedError ∨ e = .keyError k := by
  cases r with
  | empty => simp [Repository.getItem] at h; simp [h]
  | ini data =>
    simp only [Repository.getItem] at h
    cases halo : alookup data k <;> rw [halo] at h <;> simp_all
  | envFile data =>
    simp only [Repository.getItem] at h
    cases halo : alookup data k <;> rw [halo] at h <;> simp_all
  | secret data =>
    simp only [Repository.getItem] at h
    cases halo : alookup data k <;> rw [halo] at h <;> simp_all

/-- Lookup after a dict assignment: the assigned key maps to the new value,
every other key is unaffected. -/
theorem alookup_dictInsert (d : List (String × String)) (k v key : String) :
    alookup (dictInsert d k v) key =
      if k = key then some v else alookup d key := by
  induction d with
  | nil => simp [dictInsert, alookup]
  | cons hd tl ih =>
    obtain ⟨k0, v0⟩ := hd
    by_cases h0 : k0 = k
    · subst h0
      simp only [dictInsert, if_pos rfl, alookup]
      by_cases hk : k0 = key
      · subst hk; simp
      · simp [hk]
    · simp only [dictInsert, if_neg h0, alookup]
      by_cases hk : k0 = key
      · subst hk
        have : ¬k = k0 := fun h => h0 h.symm
        simp [this]
      · simp [hk, ih]

/-! Claim theorems. -/

/-- C1: for every key present in the process environment table, Config.get
resolves the raw value from the environment (the result is the cast
pipeline applied to the environment value, whatever the repository and the
default hold); the repository determines the result only when the key is
absent from the environment (and then the default is ignored whenever the
repository reports the key); the caller-supplied default shapes the result
only when the key is absent from both. -/
theorem config_get_env_precedence (env : Env) (repo : Repository) (k : String)
    (d : Option PyVal) (c : Cast) :
    (∀ v, alookup env k = some v →
      Config.get env repo k d c = applyCast c v ∧
      ∀ (repo2 : Repository) (d2 : Option PyVal),
        Config.get env repo2 k d2 c = Config.get env repo k d c) ∧
    (alookup env k = none → repo.contains env k = true →
      (Config.get env repo k d c =
        match repo.getItem k with
        | .ok v => applyCast c v
        | .error e => .error e) ∧
      ∀ d2 : Option PyVal,
        Config.get env repo k d2 c = Config.get env repo k d c) ∧
    (alookup env k = none → repo.contains env k = false →
      Config.get env repo k d c =
        match d with
        | none => .error (.undefinedValue (undefinedMsg k))
        | some (.str s) => applyCast c s
        | some v => .ok v) := by
  refine ⟨?_, ?_, ?_⟩
  · intro v hv
    refine ⟨by simp [Config.get, hv], ?_⟩
    intro repo2 d2
    simp [Config.get, hv]
  · intro hnone hcont
    refine ⟨by simp [Config.get, hnone, hcont], ?_⟩
    intro d2
    simp [Config.get, hnone, hcont]
  · intro hnone hcont
    simp [Config.get, hnone, hcont]

/-- Witness for C1 at concrete inputs: the environment value wins over a
repository that also defines the key. -/
theorem config_get_env_precedence_witness :
    Config.get [("KEY", "envval")] (.envFile [("KEY", "repval")]) "KEY"
      (some (.str "defval")) .undefinedC = .ok (.str "envval") := by
  have h := (config_get_env_precedence [("KEY", "envval")]
    (.envFile [("KEY", "repval")]) "KEY" (some (.str "defval"))
    .undefinedC).1 "envval" rfl
  exact h.1.trans rfl

/-- C2: Config.get raises UndefinedValueError exactly when the key is
absent from the environment, absent from the repository, and no default
was supplied; the message of that error is the fixed text naming the
missing key, and the key occurs verbatim inside the message. -/
theorem config_get_undefined_iff (env : Env) (repo : Repository) (k : String)
    (d : Option PyVal) (c : Cast) :
    (∀ msg, Config.get env repo k d c = .error (.undefinedValue msg) →
      alookup env k = none ∧ repo.contains env k = false ∧ d = none ∧
      msg = undefinedMsg k) ∧
    (alookup env k = none → repo.contains env k = false → d = none →
      Config.get env repo k d c = .error (.undefinedValue (undefinedMsg k))) ∧
    k.data <:+: (undefinedMsg k).data := by
  refine ⟨?_, ?_, ?_⟩
  · intro msg hmsg
    unfold Config.get at hmsg
    cases henv : alookup env k with
    | some v =>
      rw [henv] at hmsg
      exact absurd hmsg (applyCast_ne_undefinedValue c v msg)
    | none =>
      rw [henv] at hmsg
      by_cases hcont : repo.contains env k
      · rw [if_pos hcont] at hmsg
        cases hget : repo.getItem k with
        | ok v =>
          rw [hget] at hmsg
          exact absurd hmsg (applyCast_ne_undefinedValue c v msg)
        | error e =>
          rw [hget] at hmsg
          rcases getItem_error_cases repo k e hget with he | he <;>
            simp [he] at hmsg
      · rw [if_neg hcont] at hmsg
        cases d with
        | none =>
          simp only [Except.error.injEq, PyErr.undefinedValue.injEq] at hmsg
          exact ⟨rfl, by simp [hcont], rfl, hmsg.symm⟩
        | some v =>
          cases v with
          | str s => exact absurd hmsg (applyCast_ne_undefinedValue c s msg)
          | boolV b => simp at hmsg
          | intV n => simp at hmsg
          | noneV => simp at hmsg
          | listV l => simp at hmsg
  · intro hnone hcont hd
    subst hd
    simp [Config.get, hnone, hcont]
  · exact ⟨[squote], [squote] ++
      " not found. Declare it as envvar or define a default value.".data,
      by simp [undefinedMsg]⟩

/-- Witness for C2 at concrete inputs: a key absent everywhere with no
default raises the error with the message naming it. -/
theorem config_get_undefined_iff_witness :
    Config.get [("OTHER", "x")] (.envFile [("ALSO", "y")]) "MISSING" none
      .undefinedC = .error (.undefinedValue (undefinedMsg "MISSING")) := by
  exact (config_get_undefined_iff [("OTHER", "x")] (.envFile [("ALSO", "y")])
    "MISSING" none .undefinedC).2.1 rfl rfl rfl

/-- The true and false vocabularies of strtobool share no member. -/
theorem trueFalseDisjoint (s : String) (ht : TRUE_VALUES.contains s = true)
    (hf : FALSE_VALUES.contains s = true) : False := by
  simp only [TRUE_VALUES, List.contains_cons, List.contains_nil,
    Bool.or_eq_true, beq_iff_eq] at ht
  rcases ht with rfl | rfl | rfl | rfl | rfl | rfl | h <;>
    simp_all [FALSE_VALUES]

/-- C3: with cast = bool, Config.get on a raw environment value whose
lowercasing is in the true vocabulary returns True; on one whose
lowercasing is in the false vocabulary, or on the empty string, returns
False; on every other raw string it raises the strtobool ValueError
carrying the (lowercased) offending value. -/
theorem config_get_bool_cast (env : Env) (repo : Repository) (k : String)
    (d : Option PyVal) (v : String) (henv : alookup env k = some v) :
    (TRUE_VALUES.contains (pyLower v) = true →
      Config.get env repo k d .boolC = .ok (.boolV true)) ∧
    (FALSE_VALUES.contains (pyLower v) = true ∨ v = "" →
      Config.get env repo k d .boolC = .ok (.boolV false)) ∧
    (v ≠ "" → TRUE_VALUES.contains (pyLower v) = false →
      FALSE_VALUES.contains (pyLower v) = false →
      Config.get env repo k d .boolC = .error (.invalidTruth (pyLower v))) := by
  refine ⟨?_, ?_, ?_⟩
  · intro htrue
    have hv : v ≠ "" := by
      intro h
      rw [h] at htrue
      exact absurd htrue (by decide)
    unfold Config.get
    rw [henv]
    simp only [applyCast, castBoolean, strtobool, if_neg hv, htrue, if_true,
      Except.map]
  · intro hfalse
    rcases hfalse with hf | hemp
    · by_cases hv : v = ""
      · unfold Config.get
        rw [henv]
        simp only [applyCast, castBoolean, if_pos hv, Except.map]
      · have htrue : TRUE_VALUES.contains (pyLower v) = false := by
          cases ht : TRUE_VALUES.contains (pyLower v)
          · rfl
          · exact absurd (trueFalseDisjoint (pyLower v) ht hf) (by simp)
        unfold Config.get
        rw [henv]
        simp only [applyCast, castBoolean, strtobool, if_neg hv, htrue,
          hf, if_true, Bool.false_eq_true, if_false, Except.map]
    · unfold Config.get
      rw [henv]
      simp only [applyCast, castBoolean, if_pos hemp, Except.map]
  · intro hv htrue hfalse
    unfold Config.get
    rw [henv]
    simp only [applyCast, castBoolean, strtobool, if_neg hv, htrue, hfalse,
      Bool.false_eq_true, if_false, Except.map]

/-- Witness for C3 at concrete inputs: YES casts to True, oFF to False, the
empty string to False, and maybe raises the ValueError. -/
theorem config_get_bool_cast_witness :
    Config.get [("FLAG", "YES")] .empty "FLAG" none .boolC
      = .ok (.boolV true) ∧
    Config.get [("FLAG", "oFF")] .empty "FLAG" none .boolC
      = .ok (.boolV false) ∧
    Config.get [("FLAG", "")] .empty "FLAG" none .boolC
      = .ok (.boolV false) ∧
    Config.get [("FLAG", "maybe")] .empty "FLAG" none .boolC
      = .error (.invalidTruth "maybe") := by
  refine ⟨?_, ?_, ?_, ?_⟩
  · exact (config_get_bool_cast [("FLAG", "YES")] .empty "FLAG" none
      "YES" rfl).1 (by decide)
  · exact (config_get_bool_cast [("FLAG", "oFF")] .empty "FLAG" none
      "oFF" rfl).2.1 (Or.inl (by decide))
  · exact (config_get_bool_cast [("FLAG", "")] .empty "FLAG" none
      "" rfl).2.1 (Or.inr rfl)
  · exact (config_get_bool_cast [("FLAG", "maybe")] .empty "FLAG" none
      "maybe" rfl).2.2 (by decide) (by decide) (by decide)

/-- C8: a non-string default (None included) is returned unchanged when the
key is absent from the environment and from the repository; the supplied
cast is universally quantified and absent from the result, so it is never
invoked. -/
theorem config_get_nonstring_default (env : Env) (repo : Repository)
    (k : String) (v : PyVal) (c : Cast)
    (henv : alookup env k = none) (hrep : repo.contains env k = false)
    (hstr : ∀ s, v ≠ .str s) :
    Config.get env repo k (some v) c = .ok v := by
  unfold Config.get
  rw [henv, if_neg (by simp [hrep])]
  cases v with
  | str s => exact absurd rfl (hstr s)
  | boolV b => rfl
  | intV n => rfl
  | noneV => rfl
  | listV l => rfl

/-- Witness for C8 at concrete inputs: the default None survives a
requested string-producing cast untouched. -/
theorem config_get_nonstring_default_witness :
    Config.get [("OTHER", "x")] (.secret [("ALSO", "y")]) "MISSING"
      (some .noneV) (.fnC (fun s => .ok (.str s))) = .ok .noneV := by
  exact config_get_nonstring_default [("OTHER", "x")] (.secret [("ALSO", "y")])
    "MISSING" .noneV (.fnC (fun s => .ok (.str s))) rfl rfl
    (fun s h => by cases h)

/-- C10: a key absent from the environment but bound to the empty string in
the repository resolves to the empty string, not to the supplied default;
under the boolean cast the result is False. -/
theorem config_get_empty_string_value (env : Env) (repo : Repository)
    (k : String) (dflt : PyVal)
    (henv : alookup env k = none)
    (hcont : repo.contains env k = true)
    (hget : repo.getItem k = .ok "") :
    Config.get env repo k (some dflt) .undefinedC = .ok (.str "") ∧
    Config.get env repo k (some dflt) .boolC = .ok (.boolV false) := by
  constructor
  · unfold Config.get
    rw [henv, if_pos hcont, hget]
    rfl
  · unfold Config.get
    rw [henv, if_pos hcont, hget]
    rfl

/-- Witness for C10 at concrete inputs: an env-file repository binding KEY
to the empty string beats the default fallback. -/
theorem config_get_empty_string_value_witness :
    Config.get [] (.envFile [("KEY", "")]) "KEY" (some (.str "fallback"))
      .undefinedC = .ok (.str "") ∧
    Config.get [] (.envFile [("KEY", "")]) "KEY" (some (.str "fallback"))
      .boolC = .ok (.boolV false) := by
  exact config_get_empty_string_value [] (.envFile [("KEY", "")]) "KEY"
    (.str "fallback") rfl rfl rfl

/-- C4: RepositoryEnv construction skips stripped-blank lines, lines whose
first non-blank character is the hash, and lines without an equals sign;
every other line is split at its first equals sign, key and value are
whitespace-stripped, one matching outer pair of straight quotes is removed
from the value with no escape processing, later duplicate keys overwrite
earlier bindings and leave other keys untouched, and the three round-trip
lines produce the unquoted value. -/
theorem repositoryEnv_parsing :
    (∀ line : String,
      pyStripList line.data = [] ∨
      (pyStripList line.data).head? = some '#' ∨
      splitFirst '=' (pyStripList line.data) = none →
      parseEnvLine line = none) ∧
    (∀ (line : String) (k v : List Char),
      pyStripList line.data ≠ [] →
      (pyStripList line.data).head? ≠ some '#' →
      splitFirst '=' (pyStripList line.data) = some (k, v) →
      parseEnvLine line =
        some (String.mk (pyStripList k),
          stripMatchingQuotes (String.mk (pyStripList v)))) ∧
    (∀ (q : Char) (s : String), q = squote ∨ q = dquote →
      stripMatchingQuotes (String.mk (q :: s.data ++ [q])) = s) ∧
    (∀ v : String,
      ¬(2 ≤ v.data.length ∧
        ((v.data.head? = some squote ∧ v.data.getLast? = some squote) ∨
         (v.data.head? = some dquote ∧ v.data.getLast? = some dquote))) →
      stripMatchingQuotes v = v) ∧
    (∀ (lines : List String) (line k v key : String),
      parseEnvLine line = some (k, v) →
      alookup (repositoryEnvData (lines ++ [line])) key =
        if k = key then some v else alookup (repositoryEnvData lines) key) ∧
    alookup (repositoryEnvData ["KEY=value"]) "KEY" = some "value" ∧
    alookup (repositoryEnvData
      [String.mk ("KEY=".data ++ [dquote] ++ "value".data ++ [dquote])])
      "KEY" = some "value" ∧
    alookup (repositoryEnvData
      [String.mk ("KEY=".data ++ [squote] ++ "value".data ++ [squote])])
      "KEY" = some "value" := by
  refine ⟨?_, ?_, ?_, ?_, ?_, by decide, by decide, by decide⟩
  · intro line h
    unfold parseEnvLine
    rcases h with h | h | h
    · simp [h]
    · by_cases hnil : pyStripList line.data = []
      · simp [hnil]
      · simp [hnil, h]
    · by_cases hnil : pyStripList line.data = []
      · simp [hnil]
      · by_cases hhash : (pyStripList line.data).head? = some '#'
        · simp [hnil, hhash]
        · simp [hnil, hhash, h]
  · intro line k v hnil hhash hsplit
    unfold parseEnvLine
    simp [hnil, hhash, hsplit]
  · intro q s hq
    unfold stripMatchingQuotes
    rw [if_pos ?cond]
    case cond =>
      constructor
      · simp
      · have hlast : (q :: s.data ++ [q]).getLast? = some q :=
          List.getLast?_concat _
        rcases hq with rfl | rfl
        · exact Or.inl ⟨rfl, hlast⟩
        · exact Or.inr ⟨rfl, hlast⟩
    show String.mk ((q :: s.data ++ [q]).tail.dropLast) = s
    rw [List.cons_append, List.tail_cons, List.dropLast_concat]
  · intro v h
    unfold stripMatchingQuotes
    rw [if_neg h]
  · intro lines line k v key hline
    unfold repositoryEnvData
    rw [List.foldl_append]
    simp only [List.foldl_cons, List.foldl_nil, hline]
    exact alookup_dictInsert _ k v key

/-- Witness for C4 at concrete inputs: one skipped line, one split-and-
stripped line, quote stripping and its absence, and a later duplicate key
overwriting the earlier one. -/
theorem repositoryEnv_parsing_witness :
    parseEnvLine "# comment" = none ∧
    parseEnvLine "KEY = value " = some ("KEY", "value") ∧
    stripMatchingQuotes (String.mk (squote :: "a b".data ++ [squote]))
      = "a b" ∧
    stripMatchingQuotes "plain" = "plain" ∧
    alookup (repositoryEnvData (["A=1", "B=2"] ++ ["A=3"])) "A" = some "3" := by
  have h := repositoryEnv_parsing
  refine ⟨?_, ?_, ?_, ?_, ?_⟩
  · exact h.1 "# comment" (Or.inr (Or.inl (by decide)))
  · exact (h.2.1 "KEY = value " "KEY ".data " value".data (by decide)
      (by decide) (by decide)).trans (by decide)
  · exact h.2.2.1 squote "a b" (Or.inl rfl)
  · exact h.2.2.2.1 "plain" (by decide)
  · exact (h.2.2.2.2.1 ["A=1", "B=2"] "A=3" "A" "3" "A" (by decide)).trans
      (by decide)

/-- On a filesystem holding no settings.ini or .env anywhere, the search
exhausts any recursion depth and raises RecursionError, from any starting
directory: it never stops at the root. -/
theorem findFileAux_no_files (fuel : Nat) (p : List String) :
    findFileAux (fun _ _ => false) fuel p = .error .recursionError := by
  induction fuel generalizing p with
  | zero => rfl
  | succ n ih => simp [findFileAux, pathTruthy, normcaseNeRootDir, ih]

/-- The return-empty-string branch of _find_file (reached root without
finding any files) is dead code: no file predicate, recursion depth or
starting directory reaches it. -/
theorem findFileAux_root_branch_dead (isFile : List String → String → Bool)
    (fuel : Nat) : ∀ p : List String, findFileAux isFile fuel p ≠ .ok none := by
  induction fuel with
  | zero =>
    intro p h
    simp [findFileAux] at h
  | succ n ih =>
    intro p h
    rw [findFileAux] at h
    split_ifs at h with h1 h2 h3
    · simp at h
    · simp at h
    · exact ih p.tail h
    · simp [pathTruthy, normcaseNeRootDir] at h3

/-- C5: the code at the failing input.  Starting anywhere on a filesystem
with no settings.ini or .env, the upward search never takes its root-stop
branch — the guard comparing os.path.normcase(parent), a str, with
root_dir, a Path, holds at every directory because a str never equals a
Path — so instead of stopping when the parent is the filesystem root it
recurses at the root into itself until the interpreter recursion depth is
exhausted (RecursionError), whatever that depth is; the fall back to the
Empty repository happens only because _load catches that exception, and a
subsequent keyless-default request then raises UndefinedValueError. -/
theorem autoconfig_find_file_bug :
    (∀ fuel : Nat, findFileAux (fun _ _ => false) fuel ["proj", "home"]
      = .error .recursionError) ∧
    (∀ (isFile : List String → String → Bool) (fuel : Nat) (p : List String),
      findFileAux isFile fuel p ≠ .ok none) ∧
    (∀ fuel : Nat, autoLoadRepo (fun _ _ => false) (fun _ => [])
      (fun _ => []) fuel ["proj", "home"] = .empty) ∧
    Config.get [] .empty "KEY" none .undefinedC
      = .error (.undefinedValue (undefinedMsg "KEY")) := by
  refine ⟨fun fuel => findFileAux_no_files fuel _,
    findFileAux_root_branch_dead, ?_, rfl⟩
  intro fuel
  unfold autoLoadRepo
  rw [findFileAux_no_files]

/-- Counterexample for C6 as stated: with the key HOME present in the
environment table, the Empty variant's membership operation still returns
false. -/
theorem repository_contains_counterexample :
    envContains [("HOME", "x")] "HOME" = true ∧
    (Repository.empty).contains [("HOME", "x")] "HOME" = false := by decide

/-- C6 amended: for every key present in the process environment table, the
membership operation of the EnvFile, IniFile and SecretDir variants
returns true regardless of their own backing store; the Empty variant's
membership operation returns false unconditionally. -/
theorem repository_contains_env (env : Env) (k : String)
    (d : List (String × String)) (h : envContains env k = true) :
    (Repository.ini d).contains env k = true ∧
    (Repository.envFile d).contains env k = true ∧
    (Repository.secret d).contains env k = true ∧
    (∀ (env2 : Env) (k2 : String),
      (Repository.empty).contains env2 k2 = false) := by
  refine ⟨?_, ?_, ?_, fun env2 k2 => rfl⟩ <;>
    simp [Repository.contains, h]

/-- Witness for C6 at concrete inputs: a key held only by the environment
is reported by the three file-backed variants over a disjoint store. -/
theorem repository_contains_env_witness :
    (Repository.ini [("OTHER", "y")]).contains [("HOME", "x")] "HOME"
      = true ∧
    (Repository.envFile [("OTHER", "y")]).contains [("HOME", "x")] "HOME"
      = true ∧
    (Repository.secret [("OTHER", "y")]).contains [("HOME", "x")] "HOME"
      = true ∧
    (∀ (env2 : Env) (k2 : String),
      (Repository.empty).contains env2 k2 = false) := by
  exact repository_contains_env [("HOME", "x")] "HOME" [("OTHER", "y")] rfl

/-- Counterexample for C7 as stated: the Empty variant's direct lookup on
a key absent from its (empty) store raises NotImplementedError, which is
not the KeyError condition the claim requires. -/
theorem repository_getitem_counterexample :
    (Repository.empty).getItem "ANY" = .error .notImplementedError ∧
    PyErr.notImplementedError ≠ PyErr.keyError "ANY" := ⟨rfl, by decide⟩

/-- C7 amended: on a key absent from the variant's own backing store, the
direct lookup of EnvFile, IniFile and SecretDir raises KeyError naming the
key, while Empty raises NotImplementedError; no variant ever raises
UndefinedValueError, and none consults the process environment (the
lookup takes no environment input at all). -/
theorem repository_getitem_absent (k : String) (d : List (String × String))
    (h : alookup d k = none) :
    (Repository.ini d).getItem k = .error (.keyError k) ∧
    (Repository.envFile d).getItem k = .error (.keyError k) ∧
    (Repository.secret d).getItem k = .error (.keyError k) ∧
    (∀ key : String, (Repository.empty).getItem key
      = .error .notImplementedError) ∧
    (∀ (r : Repository) (key msg : String),
      r.getItem key ≠ .error (.undefinedValue msg)) := by
  refine ⟨?_, ?_, ?_, fun key => rfl, ?_⟩
  · simp [Repository.getItem, h]
  · simp [Repository.getItem, h]
  · simp [Repository.getItem, h]
  · intro r key msg hbad
    rcases getItem_error_cases r key _ hbad with he | he <;> simp at he

/-- Witness for C7 at concrete inputs: a key missing from a nonempty store. -/
theorem repository_getitem_absent_witness :
    (Repository.ini [("OTHER", "y")]).getItem "MISSING"
      = .error (.keyError "MISSING") ∧
    (Repository.envFile [("OTHER", "y")]).getItem "MISSING"
      = .error (.keyError "MISSING") ∧
    (Repository.secret [("OTHER", "y")]).getItem "MISSING"
      = .error (.keyError "MISSING") ∧
    (∀ key : String, (Repository.empty).getItem key
      = .error .notImplementedError) ∧
    (∀ (r : Repository) (key msg : String),
      r.getItem key ≠ .error (.undefinedValue msg)) := by
  exact repository_getitem_absent "MISSING" [("OTHER", "y")] rfl

/-- C9: the list-splitter with its default configuration maps a,b,c to the
three elements a, b, c in order, maps the Python None input to the empty
list, and does not split the quoted segment of the input built as
squote a , b squote , c, whose quotes are removed. -/
theorem csv_default_examples :
    Csv.call id "," pyWhitespace (some "a,b,c") = .ok ["a", "b", "c"] ∧
    Csv.call id "," pyWhitespace none = .ok [] ∧
    Csv.call id "," pyWhitespace
      (some (String.mk [squote, 'a', ',', 'b', squote, ',', 'c']))
      = .ok ["a,b", "c"] := by
  refine ⟨rfl, rfl, rfl⟩

end Decouple
